import Mathlib

/-!
Shallow embedding of the Galaxy night-sky animation (src/script.js).

Modelling conventions:
* JavaScript numbers are modelled as exact rationals (ℚ); quantities whose
  source computation is irrational (`Math.pow(·, 1.2)`, `Math.PI`) live in ℝ.
* Each call to `Math.random()` is a draw from an explicit stream `rs : ℕ → ℚ`
  of values in `[0, 1)`; `rand(min, max)` from the source becomes
  `rand u min max` with `u` the underlying draw.
* Calls to transcendental library routines (`Math.cos`, `Math.sin`,
  `Math.exp`, `gaussian()`) are modelled as oracle inputs: the values they
  return are parameters of the embedding, since no claim depends on their
  analytic form.
* Canvas drawing calls have no effect on the modelled state and are omitted;
  only state mutation is embedded.
-/

set_option maxRecDepth 4000

namespace Galaxy

/-- `rand(min, max)` from script.js line 49: `Math.random() * (max - min) + min`,
with `u` the `Math.random()` draw. -/
def rand (u min max : ℚ) : ℚ := u * (max - min) + min

/-- `clamp(v, a, b)` from script.js line 51: `Math.max(a, Math.min(b, v))`. -/
def clamp (v a b : ℚ) : ℚ := Max.max a (Min.min b v)

/-! ## Meteor lifecycle (script.js lines 202–222, 292–347, 364) -/

/-- One sample of the meteor trail: `{ x, y, t }` pushed at line 309. -/
structure TrailPoint where
  x : ℚ
  y : ℚ
  t : ℚ
deriving DecidableEq

/-- The meteor object created by `spawnMeteor` (lines 213–221). -/
structure Meteor where
  x : ℚ
  y : ℚ
  vx : ℚ
  vy : ℚ
  life : ℚ
  age : ℚ
  trail : List TrailPoint
deriving DecidableEq

/-- The module-level meteor state: the nullable `meteor` reference and the
`nextMeteorAt` timestamp (lines 34–35). -/
structure MState where
  meteor : Option Meteor
  nextMeteorAt : ℚ
deriving DecidableEq

/-- Random draws consumed by one `spawnMeteor()` call.  `cosA`/`sinA` are the
values of `Math.cos(a)`/`Math.sin(a)` for the drawn travel angle `a`
(the angle itself involves π and is only used through these two values). -/
structure SpawnDraws where
  fromLeft : Bool
  rStartX : ℚ
  rStartY : ℚ
  cosA : ℚ
  sinA : ℚ
  rSpeed : ℚ
  rLife : ℚ
deriving DecidableEq

/-- `spawnMeteor()` (lines 203–222). -/
def spawnMeteor (W H : ℚ) (dr : SpawnDraws) : Meteor :=
  let startX := if dr.fromLeft
    then rand dr.rStartX (-W * (2/10)) (W * (1/10))
    else rand dr.rStartX (W * (9/10)) (W * (12/10))
  let startY := rand dr.rStartY (-H * (1/10)) (H * (35/100))
  let speed := rand dr.rSpeed 650 1150 / 1000 * Max.max W H
  { x := startX
    y := startY
    vx := dr.cosA * speed
    vy := dr.sinA * speed
    life := rand dr.rLife 500 1100
    age := 0
    trail := [] }

/-- Per-frame inputs to `handleMeteors(dt)`: the `chkMeteors.checked` flag,
`performance.now()`, `dt`, the spawn draws (used only if a spawn fires) and
the `rand(METEOR_MIN_GAP, METEOR_MAX_GAP)` draw. -/
structure FrameIn where
  chk : Bool
  now : ℚ
  dt : ℚ
  draws : SpawnDraws
  rGap : ℚ
deriving DecidableEq

/-- Spawn check of `handleMeteors` (lines 293–297): spawn when the feature is
on, there is no meteor (or the stored one is past its life), and
`now >= nextMeteorAt`; on spawn, `nextMeteorAt` is reset to `now` plus a
random gap in `[3800, 9500]`.  Returns the new state and whether a spawn
occurred. -/
def spawnPhase (W H : ℚ) (s : MState) (fi : FrameIn) : MState × Bool :=
  if fi.chk && (match s.meteor with
      | none => true
      | some m => decide (m.age > m.life)) && decide (fi.now ≥ s.nextMeteorAt) then
    ({ meteor := some (spawnMeteor W H fi.draws)
       nextMeteorAt := fi.now + rand fi.rGap 3800 9500 }, true)
  else (s, false)

/-- The trail sample appended at line 309 after the motion integration of
lines 302–306 (position after the step, age after the step). -/
def trailSample (m : Meteor) (dt : ℚ) : TrailPoint :=
  ⟨m.x + m.vx * (dt / 1000), m.y + m.vy * (dt / 1000), m.age + dt⟩

/-- Motion + trail update of `handleMeteors` (lines 301–310): advance age,
integrate position, push the new sample and `shift()` the oldest one when the
length passes 120. -/
def updateMeteor (m : Meteor) (dt : ℚ) : Meteor :=
  let age := m.age + dt
  let x := m.x + m.vx * (dt / 1000)
  let y := m.y + m.vy * (dt / 1000)
  let trail0 := m.trail ++ [trailSample m dt]
  let trail := if 120 < trail0.length then trail0.drop 1 else trail0
  { m with x := x, y := y, age := age, trail := trail }

/-- Cleanup condition of `handleMeteors` (lines 340–344): age past life, or
position more than 200px outside the viewport on any side. -/
def cleanupCond (W H : ℚ) (m : Meteor) : Bool :=
  decide (m.age > m.life) || decide (m.x < -200) || decide (m.x > W + 200) ||
    decide (m.y < -200) || decide (m.y > H + 200)

/-- `handleMeteors(dt)` (lines 292–347), state effects only: spawn check,
early return when no meteor, motion/trail update, cleanup.  The second
component reports whether a spawn occurred this frame. -/
def handleMeteors (W H : ℚ) (s : MState) (fi : FrameIn) : MState × Bool :=
  let sp := spawnPhase W H s fi
  match sp.1.meteor with
  | none => sp
  | some m =>
    let m1 := updateMeteor m fi.dt
    if cleanupCond W H m1 then ({ sp.1 with meteor := none }, sp.2)
    else ({ sp.1 with meteor := some m1 }, sp.2)

/-- The `chkMeteors` change handler with the box unchecked (line 364):
`meteor = null`. -/
def meteorsOffHandler (s : MState) : MState := { s with meteor := none }

/-- States of the meteor subsystem reachable from boot (line 34: `meteor`
starts `null`) under per-frame `handleMeteors` steps and the toggle-off
handler. -/
inductive ReachM (W H : ℚ) : MState → Prop where
  | init : ∀ t0 : ℚ, ReachM W H { meteor := none, nextMeteorAt := t0 }
  | frame : ∀ (s : MState) (fi : FrameIn),
      ReachM W H s → ReachM W H (handleMeteors W H s fi).1
  | toggleOff : ∀ s : MState, ReachM W H s → ReachM W H (meteorsOffHandler s)

/-- A meteor is Active when its age has not exceeded its lifespan and its
position is within the 200px off-screen margin. -/
def meteorActive (W H : ℚ) (m : Meteor) : Prop :=
  m.age ≤ m.life ∧ -200 ≤ m.x ∧ m.x ≤ W + 200 ∧ -200 ≤ m.y ∧ m.y ≤ H + 200

instance (W H : ℚ) (m : Meteor) : Decidable (meteorActive W H m) := by
  unfold meteorActive; infer_instance

/-- Number of live meteors held by the state (the source holds at most one in
the single nullable `meteor` reference). -/
def meteorCount : Option Meteor → ℕ
  | none => 0
  | some _ => 1

/-- `n` successive per-frame meteor updates (lines 301–310) with a fixed
elapsed time per frame. -/
def iterUpdate (dt : ℚ) : ℕ → Meteor → Meteor
  | 0, m => m
  | n + 1, m => iterUpdate dt n (updateMeteor m dt)

theorem updateMeteor_trail_eq (m : Meteor) (dt : ℚ) :
    (updateMeteor m dt).trail =
      if 120 < (m.trail ++ [trailSample m dt]).length
      then (m.trail ++ [trailSample m dt]).drop 1
      else m.trail ++ [trailSample m dt] := rfl

theorem updateMeteor_trail_len (m : Meteor) (dt : ℚ) (h : m.trail.length ≤ 120) :
    (updateMeteor m dt).trail.length = Min.min (m.trail.length + 1) 120 := by
  rw [updateMeteor_trail_eq]
  split_ifs with hlen
  · simp only [List.length_drop, List.length_append, List.length_singleton] at *
    omega
  · simp only [List.length_append, List.length_singleton] at *
    omega

theorem iterUpdate_trail_le (dt : ℚ) :
    ∀ (n : ℕ) (m : Meteor), m.trail.length ≤ 120 →
      (iterUpdate dt n m).trail.length ≤ 120
  | 0, _, h => h
  | n + 1, m, h => by
    apply iterUpdate_trail_le dt n
    rw [updateMeteor_trail_len m dt h]
    omega

end Galaxy

namespace Galaxy

/-- C1: at every state reachable under the per-frame meteor step relation the
state holds at most one meteor, and a frame whose incoming state contains an
Active meteor (age not past lifespan, position within the 200px margin) never
spawns a new one. -/
theorem meteor_single_instance (W H : ℚ) (s : MState) (_hreach : ReachM W H s) :
    meteorCount s.meteor ≤ 1 ∧
    ∀ (fi : FrameIn) (m : Meteor), s.meteor = some m → meteorActive W H m →
      (handleMeteors W H s fi).2 = false := by
  refine ⟨?_, ?_⟩
  · cases s.meteor <;> simp [meteorCount]
  · intro fi m hm hact
    have hnot : ¬ (m.age > m.life) := not_lt.mpr hact.1
    have hsp : spawnPhase W H s fi = (s, false) := by
      unfold spawnPhase
      rw [hm]
      simp [hnot]
    simp only [handleMeteors, hsp]
    rw [hm]
    by_cases hc : cleanupCond W H (updateMeteor m fi.dt) = true <;> simp [hc]

def fiC1a : FrameIn :=
  { chk := true, now := 0, dt := 0
    draws := { fromLeft := true, rStartX := 2/3, rStartY := 0,
               cosA := 1, sinA := 0, rSpeed := 0, rLife := 0 }
    rGap := 0 }

def fiC1b : FrameIn :=
  { chk := true, now := 10000, dt := 16
    draws := { fromLeft := true, rStartX := 2/3, rStartY := 0,
               cosA := 1, sinA := 0, rSpeed := 0, rLife := 0 }
    rGap := 0 }

/-- The state after one spawning frame from boot: one Active meteor. -/
def sC1 : MState := (handleMeteors 800 600 { meteor := none, nextMeteorAt := 0 } fiC1a).1

def mC1 : Meteor :=
  { x := 0, y := -60, vx := 520, vy := 0, life := 500, age := 0, trail := [⟨0, -60, 0⟩] }

/-- Witness for C1 at a concrete reachable state holding an Active meteor. -/
theorem meteor_single_instance_witness :
    meteorCount sC1.meteor ≤ 1 ∧ (handleMeteors 800 600 sC1 fiC1b).2 = false := by
  have h := meteor_single_instance 800 600 sC1
    (ReachM.frame { meteor := none, nextMeteorAt := 0 } fiC1a (ReachM.init 0))
  exact ⟨h.1, h.2 fiC1b mC1 (by with_unfolding_all decide) (by with_unfolding_all decide)⟩

/-- C3: under any number of per-frame updates the meteor trail never exceeds
120 samples; each update appends exactly one sample (length grows by one,
saturating at 120) and, at the cap, evicts the oldest sample. -/
theorem meteor_trail_bounded (m : Meteor) (dt : ℚ) (n : ℕ)
    (h : m.trail.length ≤ 120) :
    (iterUpdate dt n m).trail.length ≤ 120 ∧
    (updateMeteor m dt).trail.length = Min.min (m.trail.length + 1) 120 ∧
    (m.trail.length = 120 →
      (updateMeteor m dt).trail = m.trail.drop 1 ++ [trailSample m dt]) := by
  refine ⟨iterUpdate_trail_le dt n m h, updateMeteor_trail_len m dt h, ?_⟩
  intro h120
  rw [updateMeteor_trail_eq, if_pos (by simp [h120])]
  exact List.drop_append_of_le_length (by omega)

def mC3 : Meteor :=
  { x := 0, y := 0, vx := 100, vy := 50, life := 900, age := 0, trail := [] }

/-- Witness for C3 on a freshly spawned meteor (empty trail), three frames. -/
theorem meteor_trail_bounded_witness :
    (iterUpdate 16 3 mC3).trail.length ≤ 120 ∧
    (updateMeteor mC3 16).trail.length = Min.min (mC3.trail.length + 1) 120 ∧
    (mC3.trail.length = 120 →
      (updateMeteor mC3 16).trail = mC3.trail.drop 1 ++ [trailSample mC3 16]) :=
  meteor_trail_bounded mC3 16 3 (by with_unfolding_all decide)

/-- C4: if at the end of one update step the meteor's age exceeds its
lifespan, or its position is more than 200px outside the viewport on any
side, the frame ends with the meteor Absent. -/
theorem meteor_absent_within_one_step (W H : ℚ) (s : MState) (fi : FrameIn)
    (m0 : Meteor) (hm : (spawnPhase W H s fi).1.meteor = some m0)
    (hc : cleanupCond W H (updateMeteor m0 fi.dt) = true) :
    (handleMeteors W H s fi).1.meteor = none := by
  simp only [handleMeteors]
  rw [hm]
  simp [hc]

def mC4 : Meteor :=
  { x := 0, y := 0, vx := 0, vy := 0, life := 500, age := 400, trail := [] }

def sC4 : MState := { meteor := some mC4, nextMeteorAt := 99999 }

def fiC4 : FrameIn :=
  { chk := false, now := 1000, dt := 200
    draws := { fromLeft := true, rStartX := 0, rStartY := 0,
               cosA := 1, sinA := 0, rSpeed := 0, rLife := 0 }
    rGap := 0 }

/-- Witness for C4: a meteor whose age passes its lifespan mid-frame
(400 + 200 > 500) is Absent at the end of that frame. -/
theorem meteor_absent_within_one_step_witness :
    (handleMeteors 800 600 sC4 fiC4).1.meteor = none :=
  meteor_absent_within_one_step 800 600 sC4 fiC4 mC4 (by with_unfolding_all decide) (by with_unfolding_all decide)

theorem handleMeteors_nextAt_spawned (W H : ℚ) (s : MState) (fi : FrameIn) :
    (handleMeteors W H s fi).1.nextMeteorAt = (spawnPhase W H s fi).1.nextMeteorAt ∧
    (handleMeteors W H s fi).2 = (spawnPhase W H s fi).2 := by
  simp only [handleMeteors]
  cases hm : (spawnPhase W H s fi).1.meteor with
  | none => exact ⟨rfl, rfl⟩
  | some m =>
    by_cases hc : cleanupCond W H (updateMeteor m fi.dt) = true <;> simp [hc]

/-- C5 (amended): `nextMeteorAt` is recomputed as `now` plus a random gap in
the fixed `[3800, 9500]` range exactly when a meteor spawns; a frame without
a spawn — including one in which the meteor disappears — and the toggle-off
handler leave it unchanged. -/
theorem nextspawn_recompute_on_spawn (W H : ℚ) (s : MState) (fi : FrameIn) :
    ((handleMeteors W H s fi).2 = true →
      (handleMeteors W H s fi).1.nextMeteorAt = fi.now + rand fi.rGap 3800 9500) ∧
    ((handleMeteors W H s fi).2 = false →
      (handleMeteors W H s fi).1.nextMeteorAt = s.nextMeteorAt) ∧
    (0 ≤ fi.rGap → fi.rGap < 1 →
      3800 ≤ rand fi.rGap 3800 9500 ∧ rand fi.rGap 3800 9500 < 9500) ∧
    (meteorsOffHandler s).nextMeteorAt = s.nextMeteorAt := by
  obtain ⟨hnext, hsp⟩ := handleMeteors_nextAt_spawned W H s fi
  have key : ((spawnPhase W H s fi).2 = true →
      (spawnPhase W H s fi).1.nextMeteorAt = fi.now + rand fi.rGap 3800 9500) ∧
      ((spawnPhase W H s fi).2 = false →
      (spawnPhase W H s fi).1.nextMeteorAt = s.nextMeteorAt) := by
    unfold spawnPhase
    split_ifs with hcond <;> simp
  refine ⟨?_, ?_, ?_, rfl⟩
  · intro h2
    rw [hnext]
    exact key.1 (hsp ▸ h2)
  · intro h2
    rw [hnext]
    exact key.2 (hsp ▸ h2)
  · intro h0 h1
    unfold rand
    constructor <;> nlinarith

def sC5w : MState := { meteor := none, nextMeteorAt := 0 }

def fiC5w : FrameIn :=
  { chk := true, now := 100, dt := 16
    draws := { fromLeft := true, rStartX := 0, rStartY := 0,
               cosA := 1, sinA := 0, rSpeed := 0, rLife := 0 }
    rGap := 1/2 }

/-- Witness for C5 (amended) at a concrete spawning frame. -/
theorem nextspawn_recompute_on_spawn_witness :
    (handleMeteors 800 600 sC5w fiC5w).1.nextMeteorAt =
      fiC5w.now + rand fiC5w.rGap 3800 9500 ∧
    (3800 ≤ rand fiC5w.rGap 3800 9500 ∧ rand fiC5w.rGap 3800 9500 < 9500) ∧
    (meteorsOffHandler sC5w).nextMeteorAt = sC5w.nextMeteorAt := by
  have h := nextspawn_recompute_on_spawn 800 600 sC5w fiC5w
  exact ⟨h.1 (by with_unfolding_all decide),
    h.2.2.1 (by with_unfolding_all decide) (by with_unfolding_all decide),
    h.2.2.2⟩

def mC5 : Meteor :=
  { x := 0, y := 0, vx := 0, vy := 0, life := 500, age := 400, trail := [] }

def sC5 : MState := { meteor := some mC5, nextMeteorAt := 70000 }

def fiC5 : FrameIn :=
  { chk := true, now := 100000, dt := 200
    draws := { fromLeft := true, rStartX := 0, rStartY := 0,
               cosA := 1, sinA := 0, rSpeed := 0, rLife := 0 }
    rGap := 0 }

/-- Counterexample to C5 as stated: in this frame the meteor disappears
(expires mid-frame), yet `nextMeteorAt` is left unchanged rather than
recomputed as current time plus a random gap. -/
theorem nextspawn_recompute_cex :
    sC5.meteor ≠ none ∧
    (handleMeteors 800 600 sC5 fiC5).1.meteor = none ∧
    (handleMeteors 800 600 sC5 fiC5).1.nextMeteorAt = sC5.nextMeteorAt ∧
    sC5.nextMeteorAt ≠ fiC5.now + rand fiC5.rGap 3800 9500 := by
  refine ⟨by with_unfolding_all decide, by with_unfolding_all decide, ?_,
    by with_unfolding_all decide⟩
  rw [(handleMeteors_nextAt_spawned 800 600 sC5 fiC5).1]
  with_unfolding_all rfl

/-! ## Band star field (script.js lines 112–144) -/

/-- `TWO_PI` from line 21: `Math.PI * 2`. -/
noncomputable def TWO_PI : ℝ := Real.pi * 2

/-- Geometry read by `makeBandStars`: viewport size, `Math.hypot(W, H)`, the
direction vector `(cos(milky.angle), sin(milky.angle))`, the band width, and
`Math.exp` as an oracle. -/
structure BandEnv where
  W : ℚ
  H : ℚ
  hyp : ℚ
  dirX : ℚ
  dirY : ℚ
  width : ℚ
  expF : ℚ → ℚ

/-- A band star as pushed at lines 133–141 (`color`/`glow` carry only the
drawn hue `tone`; the surrounding string template is presentation). -/
structure BStar where
  x : ℚ
  y : ℚ
  r : ℚ
  baseAlpha : ℚ
  twinkleSpeed : ℚ
  phase : ℝ
  tone : ℚ
  depth : ℚ

/-- The rejection-sampling loop of `makeBandStars` (lines 119–142).  `fuel`
is the remaining try budget `count * 30 - tries`; `ri`/`gi` are cursors into
the `Math.random()` and `gaussian()` streams.  Returns the array and the
final `tries` counter. -/
noncomputable def bandLoopAux (env : BandEnv) (count : ℕ)
    (randS gaussS : ℕ → ℚ) :
    ℕ → ℕ → ℕ → ℕ → List BStar → List BStar × ℕ
  | 0, tries, _, _, arr => (arr, tries)
  | fuel + 1, tries, ri, gi, arr =>
    if arr.length < count then
      let cx := env.W / 2
      let cy := env.H / 2
      let nX := -env.dirY
      let nY := env.dirX
      let t := rand (randS ri) (-env.hyp) env.hyp
      let d := gaussS gi * (env.width * (35/100))
      let x := cx + env.dirX * t + nX * d
      let y := cy + env.dirY * t + nY * d
      if x < -50 ∨ x > env.W + 50 ∨ y < -50 ∨ y > env.H + 50 then
        bandLoopAux env count randS gaussS fuel (tries + 1) (ri + 1) (gi + 1) arr
      else
        let distFactor := env.expF (-(d * d) / (2 * (env.width * (45/100)) ^ 2))
        let depth := clamp (1 - distFactor * (9/10)) (1/10) (95/100)
        let r := rand (randS (ri + 1)) (6/10) (22/10) * ((8/10) + distFactor)
        let tone := rand (randS (ri + 2)) 200 250
        let star : BStar :=
          { x := x, y := y, r := r
            baseAlpha := clamp ((3/10) + distFactor * (7/10)) (1/4) 1
            twinkleSpeed := rand (randS (ri + 3)) (1/2) (3/2)
            phase := (randS (ri + 4) : ℝ) * (TWO_PI - 0) + 0
            tone := tone, depth := depth }
        bandLoopAux env count randS gaussS fuel (tries + 1) (ri + 5) (gi + 1)
          (arr ++ [star])
    else (arr, tries)

/-- `makeBandStars(count)` (lines 112–144): run the loop with the full
`count * 30` try budget from an empty array; the second component is the
total number of sampling attempts performed. -/
noncomputable def makeBandStars (env : BandEnv) (count : ℕ)
    (randS gaussS : ℕ → ℚ) : List BStar × ℕ :=
  bandLoopAux env count randS gaussS (count * 30) 0 0 0 []

theorem bandLoopAux_spec (env : BandEnv) (count : ℕ) (randS gaussS : ℕ → ℚ) :
    ∀ (fuel tries ri gi : ℕ) (arr : List BStar), arr.length ≤ count →
      (bandLoopAux env count randS gaussS fuel tries ri gi arr).1.length ≤ count ∧
      (bandLoopAux env count randS gaussS fuel tries ri gi arr).2 ≤ tries + fuel ∧
      ((bandLoopAux env count randS gaussS fuel tries ri gi arr).1.length = count ∨
        (bandLoopAux env count randS gaussS fuel tries ri gi arr).2 = tries + fuel) := by
  intro fuel
  induction fuel with
  | zero =>
    intro tries ri gi arr h
    simp only [bandLoopAux]
    exact ⟨h, by omega, Or.inr (by omega)⟩
  | succ fuel ih =>
    intro tries ri gi arr h
    simp only [bandLoopAux]
    by_cases hlen : arr.length < count
    · simp only [if_pos hlen]
      split_ifs with hrej
      · obtain ⟨h1, h2, h3⟩ := ih (tries + 1) (ri + 1) (gi + 1) arr h
        refine ⟨h1, by omega, ?_⟩
        rcases h3 with h3 | h3
        · exact Or.inl h3
        · exact Or.inr (by omega)
      · have harr : ∀ b : BStar, (arr ++ [b]).length ≤ count := by
          intro b
          simp only [List.length_append, List.length_singleton]
          omega
        obtain ⟨h1, h2, h3⟩ := ih (tries + 1) (ri + 5) (gi + 1) _ (harr _)
        refine ⟨h1, by omega, ?_⟩
        rcases h3 with h3 | h3
        · exact Or.inl h3
        · exact Or.inr (by omega)
    · simp only [if_neg hlen]
      exact ⟨h, by omega, Or.inl (by omega)⟩

/-- C2: for every `count`, the band-field generator (a total function, hence
terminating) returns at most `count` stars, performs at most `count * 30`
sampling attempts, and when it returns fewer than `count` stars the whole
attempt budget was exhausted (it degrades silently instead of looping or
failing). -/
theorem makeBandStars_bounded (env : BandEnv) (count : ℕ)
    (randS gaussS : ℕ → ℚ) :
    (makeBandStars env count randS gaussS).1.length ≤ count ∧
    (makeBandStars env count randS gaussS).2 ≤ count * 30 ∧
    ((makeBandStars env count randS gaussS).1.length = count ∨
      (makeBandStars env count randS gaussS).2 = count * 30) := by
  simp only [makeBandStars]
  have h := bandLoopAux_spec env count randS gaussS (count * 30) 0 0 0 []
    (by simp)
  refine ⟨h.1, by omega, ?_⟩
  rcases h.2.2 with h3 | h3
  · exact Or.inl h3
  · exact Or.inr (by omega)

/-! ## Parallax pointer input and easing (script.js lines 38, 191–198, 230–232) -/

/-- The parallax record of line 38. -/
structure Parallax where
  x : ℚ
  y : ℚ
  targetX : ℚ
  targetY : ℚ
deriving DecidableEq

/-- One entry of `e.touches`. -/
structure Touch where
  clientX : ℚ
  clientY : ℚ
deriving DecidableEq

/-- A pointer/touch event as read by `onPointer`: optional `clientX`/`clientY`
and a (possibly empty) touch list. -/
structure PEvent where
  clientX : Option ℚ
  clientY : Option ℚ
  touches : List Touch
deriving DecidableEq

/-- Line 192: `e.clientX ?? (e.touches?.[0]?.clientX ?? W / 2)`. -/
def pointerEventX (W : ℚ) (e : PEvent) : ℚ :=
  e.clientX.getD ((e.touches.head?.map Touch.clientX).getD (W / 2))

/-- Line 193: `e.clientY ?? (e.touches?.[0]?.clientY ?? H / 2)`. -/
def pointerEventY (H : ℚ) (e : PEvent) : ℚ :=
  e.clientY.getD ((e.touches.head?.map Touch.clientY).getD (H / 2))

/-- `onPointer(e)` (lines 191–198): normalize the effective coordinates to
`[-1, 1]` and store them as the parallax target. -/
def onPointer (W H : ℚ) (p : Parallax) (e : PEvent) : Parallax :=
  { p with
    targetX := (pointerEventX W e / W) * 2 - 1
    targetY := (pointerEventY H e / H) * 2 - 1 }

theorem norm_coord_bounds (W v : ℚ) (hW : 0 < W) (h0 : 0 ≤ v) (h1 : v ≤ W) :
    -1 ≤ (v / W) * 2 - 1 ∧ (v / W) * 2 - 1 ≤ 1 := by
  have hq0 : 0 ≤ v / W := div_nonneg h0 hW.le
  have hq1 : v / W ≤ 1 := (div_le_one hW).mpr h1
  constructor <;> nlinarith

/-- C7: for any pointer/touch event whose effective coordinates lie within
the viewport, `onPointer` sets both parallax targets within `[-1, 1]`; an
event with no client coordinates and no touch point defaults to the viewport
center and yields a zero target on both axes. -/
theorem onPointer_target_bounds (W H : ℚ) (p : Parallax) (e : PEvent)
    (hW : 0 < W) (hH : 0 < H) :
    (0 ≤ pointerEventX W e → pointerEventX W e ≤ W →
      -1 ≤ (onPointer W H p e).targetX ∧ (onPointer W H p e).targetX ≤ 1) ∧
    (0 ≤ pointerEventY H e → pointerEventY H e ≤ H →
      -1 ≤ (onPointer W H p e).targetY ∧ (onPointer W H p e).targetY ≤ 1) ∧
    (e.clientX = none → e.touches = [] → (onPointer W H p e).targetX = 0) ∧
    (e.clientY = none → e.touches = [] → (onPointer W H p e).targetY = 0) := by
  refine ⟨?_, ?_, ?_, ?_⟩
  · intro h0 h1
    exact norm_coord_bounds W _ hW h0 h1
  · intro h0 h1
    exact norm_coord_bounds H _ hH h0 h1
  · intro hcx ht
    have hx : pointerEventX W e = W / 2 := by
      simp [pointerEventX, hcx, ht]
    simp only [onPointer, hx]
    field_simp
    ring
  · intro hcy ht
    have hy : pointerEventY H e = H / 2 := by
      simp [pointerEventY, hcy, ht]
    simp only [onPointer, hy]
    field_simp
    ring

def pC7 : Parallax := { x := 0, y := 0, targetX := 0, targetY := 0 }

def eC7 : PEvent := { clientX := some 600, clientY := some 150, touches := [] }

def eC7n : PEvent := { clientX := none, clientY := none, touches := [] }

/-- Witness for C7: a concrete mouse event and a concrete coordinate-free
event. -/
theorem onPointer_target_bounds_witness :
    (-1 ≤ (onPointer 800 600 pC7 eC7).targetX ∧
      (onPointer 800 600 pC7 eC7).targetX ≤ 1) ∧
    (-1 ≤ (onPointer 800 600 pC7 eC7).targetY ∧
      (onPointer 800 600 pC7 eC7).targetY ≤ 1) ∧
    (onPointer 800 600 pC7 eC7n).targetX = 0 ∧
    (onPointer 800 600 pC7 eC7n).targetY = 0 := by
  have h := onPointer_target_bounds 800 600 pC7 eC7
    (by with_unfolding_all decide) (by with_unfolding_all decide)
  have hn := onPointer_target_bounds 800 600 pC7 eC7n
    (by with_unfolding_all decide) (by with_unfolding_all decide)
  exact ⟨h.1 (by with_unfolding_all decide) (by with_unfolding_all decide),
    h.2.1 (by with_unfolding_all decide) (by with_unfolding_all decide),
    hn.2.2.1 rfl rfl, hn.2.2.2 rfl rfl⟩

/-- The per-frame easing of lines 230–232:
`parallax.x += (parallax.targetX - parallax.x) * 0.06` and likewise for `y`. -/
def parallaxAdvance (p : Parallax) : Parallax :=
  { p with
    x := p.x + (p.targetX - p.x) * (6/100)
    y := p.y + (p.targetY - p.y) * (6/100) }

/-- C9: if the current and target offsets lie in `[-1, 1]` on both axes, the
eased offsets after one frame still lie in `[-1, 1]` (each step is a convex
combination of current and target). -/
theorem parallax_ease_bounded (p : Parallax)
    (hx : -1 ≤ p.x ∧ p.x ≤ 1) (hy : -1 ≤ p.y ∧ p.y ≤ 1)
    (htx : -1 ≤ p.targetX ∧ p.targetX ≤ 1) (hty : -1 ≤ p.targetY ∧ p.targetY ≤ 1) :
    (-1 ≤ (parallaxAdvance p).x ∧ (parallaxAdvance p).x ≤ 1) ∧
    (-1 ≤ (parallaxAdvance p).y ∧ (parallaxAdvance p).y ≤ 1) := by
  obtain ⟨hx0, hx1⟩ := hx
  obtain ⟨hy0, hy1⟩ := hy
  obtain ⟨htx0, htx1⟩ := htx
  obtain ⟨hty0, hty1⟩ := hty
  simp only [parallaxAdvance]
  refine ⟨⟨?_, ?_⟩, ?_, ?_⟩ <;> nlinarith

def pC9 : Parallax := { x := 1/2, y := -1, targetX := -1, targetY := 1 }

/-- Witness for C9 at a concrete in-range parallax state. -/
theorem parallax_ease_bounded_witness :
    (-1 ≤ (parallaxAdvance pC9).x ∧ (parallaxAdvance pC9).x ≤ 1) ∧
    (-1 ≤ (parallaxAdvance pC9).y ∧ (parallaxAdvance pC9).y ≤ 1) :=
  parallax_ease_bounded pC9 (by with_unfolding_all decide)
    (by with_unfolding_all decide) (by with_unfolding_all decide)
    (by with_unfolding_all decide)

/-! ## Per-star rendered opacity (script.js lines 262–263) -/

/-- The twinkle factor of line 262: `0.5 + 0.5 * sin(t * speed + phase)` when
twinkling is on (with `sinVal` the value of the sine), else `1.0`. -/
def twinkleFactor (chkTwinkle : Bool) (sinVal : ℚ) : ℚ :=
  if chkTwinkle then 1/2 + 1/2 * sinVal else 1

/-- The rendered alpha of line 263: `clamp(s.baseAlpha * tw, 0.05, 1)`. -/
def starRenderAlpha (baseAlpha : ℚ) (chkTwinkle : Bool) (sinVal : ℚ) : ℚ :=
  clamp (baseAlpha * twinkleFactor chkTwinkle sinVal) (5/100) 1

/-- C10: for every star and every twinkle value the rendered opacity is
clamped to `[0.05, 1]`, so no star ever fully vanishes. -/
theorem star_alpha_clamped (baseAlpha sinVal : ℚ) (chkTwinkle : Bool) :
    5/100 ≤ starRenderAlpha baseAlpha chkTwinkle sinVal ∧
    starRenderAlpha baseAlpha chkTwinkle sinVal ≤ 1 := by
  unfold starRenderAlpha clamp
  constructor
  · exact le_max_left _ _
  · exact max_le (by norm_num) (min_le_left _ _)

/-! ## Milky Way band texture caching (script.js lines 41–46, 63–75, 147–188,
238–243, 355–359, 362) -/

/-- The cached-texture part of the module-level `milky` record: the band
width, the staleness flag and the texture reference.  The texture is
identified by a generation stamp `gen` (each `makeMilkyTexture()` call
creates a fresh offscreen canvas); the angle influences only pixel content,
which is not modelled. -/
structure MilkyState where
  width : ℚ
  dirty : Bool
  texture : Option ℕ
  gen : ℕ
deriving DecidableEq

/-- `makeMilkyTexture()` (lines 147–188), state effects only: install a fresh
texture and clear the dirty flag. -/
def makeMilkyTexture (ms : MilkyState) : MilkyState :=
  { ms with texture := some (ms.gen + 1), dirty := false, gen := ms.gen + 1 }

/-- The band part of `frame()` (lines 238–243): when the toggle is on,
regenerate the texture if it is stale or missing, then draw it; when the
toggle is off, do nothing. -/
def milkyFramePhase (chkMilky : Bool) (ms : MilkyState) : MilkyState :=
  if chkMilky then
    (if ms.dirty || ms.texture.isNone then makeMilkyTexture ms else ms)
  else ms

/-- The `chkMilky` change handler (line 362): an empty function. -/
def chkMilkyChangeHandler (ms : MilkyState) : MilkyState := ms

/-- The milky part of `resize()` (lines 73–74): recompute the width and mark
the texture stale. -/
def resizeMilky (W H : ℚ) (ms : MilkyState) : MilkyState :=
  { ms with width := Max.max 120 (Min.min W H * (45/100)), dirty := true }

/-- The click handler's milky part (lines 355–357): nudge the angle and mark
the texture stale. -/
def clickNudgeMilky (ms : MilkyState) : MilkyState := { ms with dirty := true }

/-- C8: the band toggle's change handler leaves the milky state untouched and
a frame with the toggle off performs no texture work; re-enabling therefore
rebuilds nothing while the cached texture is present and clean, and rebuilds
exactly when the geometry changed (resize or angle nudge set the dirty flag)
while the toggle was off. -/
theorem band_toggle_preserves_texture (W H : ℚ) (ms : MilkyState) :
    chkMilkyChangeHandler ms = ms ∧
    milkyFramePhase false ms = ms ∧
    (ms.dirty = false → ms.texture.isSome → milkyFramePhase true ms = ms) ∧
    (ms.dirty = true → (milkyFramePhase true ms).gen = ms.gen + 1) ∧
    (resizeMilky W H ms).texture = ms.texture ∧
    (resizeMilky W H ms).dirty = true ∧
    (clickNudgeMilky ms).texture = ms.texture ∧
    (clickNudgeMilky ms).dirty = true := by
  refine ⟨rfl, rfl, ?_, ?_, rfl, rfl, rfl, rfl⟩
  · intro hd ht
    have hn : ms.texture.isNone = false := by
      cases hmt : ms.texture
      · rw [hmt] at ht
        simp at ht
      · simp
    simp [milkyFramePhase, hd, hn]
  · intro hd
    simp [milkyFramePhase, hd, makeMilkyTexture]

def msC8 : MilkyState := { width := 270, dirty := false, texture := some 3, gen := 3 }

/-- Witness for C8 at a concrete clean cached state and its post-resize
(stale) variant. -/
theorem band_toggle_preserves_texture_witness :
    chkMilkyChangeHandler msC8 = msC8 ∧
    milkyFramePhase false msC8 = msC8 ∧
    milkyFramePhase true msC8 = msC8 ∧
    (milkyFramePhase true (resizeMilky 800 600 msC8)).gen = (resizeMilky 800 600 msC8).gen + 1 := by
  have h := band_toggle_preserves_texture 800 600 msC8
  have h2 := band_toggle_preserves_texture 800 600 (resizeMilky 800 600 msC8)
  exact ⟨h.1, h.2.1, h.2.2.1 rfl rfl, h2.2.2.2.1 rfl⟩

/-! ## General star field (script.js lines 90–109) -/

/-- The radius formula of line 94:
`Math.pow(1 - depth, 1.2) * rand(0.6, 1.8) + 0.3`, with `jitter` the
`rand(0.6, 1.8)` draw.  Real-valued because of the fractional exponent. -/
noncomputable def starRadius (depth jitter : ℚ) : ℝ :=
  ((1 - depth : ℚ) : ℝ) ^ (1.2 : ℝ) * (jitter : ℚ) + 3/10

/-- A general-field star as pushed at lines 96–106 (`color`/`glow` carry the
drawn hue `tone`). -/
structure GStar where
  x : ℚ
  y : ℚ
  r : ℝ
  baseAlpha : ℚ
  twinkleSpeed : ℚ
  phase : ℝ
  tone : ℚ
  depth : ℚ

/-- One iteration of the `makeStars` loop (lines 92–107).  `k` is the cursor
into the random stream: eight draws per star in source order — depth, radius
jitter, tone, x, y, baseAlpha, twinkleSpeed, phase. -/
noncomputable def mkStar (W H minDepth maxDepth : ℚ) (rs : ℕ → ℚ) (k : ℕ) : GStar :=
  let depth := rand (rs k) minDepth maxDepth
  let r := starRadius depth (rand (rs (k + 1)) (6/10) (18/10))
  let tone := rand (rs (k + 2)) 210 265
  { x := rs (k + 3) * W
    y := rs (k + 4) * H
    r := r
    baseAlpha := rand (rs (k + 5)) (1/4) (85/100)
    twinkleSpeed := rand (rs (k + 6)) (6/10) (18/10)
    phase := (rs (k + 7) : ℚ) * (TWO_PI - 0) + 0
    tone := tone
    depth := depth }

/-- `makeStars(count, minDepth, maxDepth)` (lines 90–109). -/
noncomputable def makeStars (count : ℕ) (W H minDepth maxDepth : ℚ)
    (rs : ℕ → ℚ) : List GStar :=
  (List.range count).map (fun i => mkStar W H minDepth maxDepth rs (8 * i))

theorem mkStar_depth_mem (W H minDepth maxDepth : ℚ) (rs : ℕ → ℚ) (k : ℕ)
    (hmm : minDepth ≤ maxDepth) (h0 : 0 ≤ rs k) (h1 : rs k < 1) :
    minDepth ≤ (mkStar W H minDepth maxDepth rs k).depth ∧
    (mkStar W H minDepth maxDepth rs k).depth ≤ maxDepth := by
  show minDepth ≤ rand (rs k) minDepth maxDepth ∧
    rand (rs k) minDepth maxDepth ≤ maxDepth
  unfold rand
  constructor <;> nlinarith

theorem mkStar_radius_lt (W H minDepth maxDepth : ℚ) (rs : ℕ → ℚ) (kA kB : ℕ)
    (hmm : minDepth ≤ maxDepth) (hmax : maxDepth ≤ 1)
    (hdB : 0 ≤ rs kB ∧ rs kB < 1) (hjA : 0 ≤ rs (kA + 1))
    (hjeq : rs (kA + 1) = rs (kB + 1))
    (hlt : (mkStar W H minDepth maxDepth rs kA).depth <
      (mkStar W H minDepth maxDepth rs kB).depth) :
    (mkStar W H minDepth maxDepth rs kB).r <
      (mkStar W H minDepth maxDepth rs kA).r := by
  have hlt' : rand (rs kA) minDepth maxDepth < rand (rs kB) minDepth maxDepth := hlt
  show starRadius (rand (rs kB) minDepth maxDepth) (rand (rs (kB + 1)) (6/10) (18/10)) <
    starRadius (rand (rs kA) minDepth maxDepth) (rand (rs (kA + 1)) (6/10) (18/10))
  rw [← hjeq]
  have hdBle : rand (rs kB) minDepth maxDepth ≤ 1 := by
    unfold rand
    nlinarith
  have hbB : (0:ℚ) ≤ 1 - rand (rs kB) minDepth maxDepth := by linarith
  have hblt : 1 - rand (rs kB) minDepth maxDepth <
      1 - rand (rs kA) minDepth maxDepth := by linarith
  have hjq : (0:ℚ) < rand (rs (kA + 1)) (6/10) (18/10) := by
    unfold rand
    nlinarith
  have hrpow : ((1 - rand (rs kB) minDepth maxDepth : ℚ) : ℝ) ^ (1.2:ℝ) <
      ((1 - rand (rs kA) minDepth maxDepth : ℚ) : ℝ) ^ (1.2:ℝ) := by
    apply Real.rpow_lt_rpow
    · exact_mod_cast hbB
    · exact_mod_cast hblt
    · norm_num
  have hjr : (0:ℝ) < ((rand (rs (kA + 1)) (6/10) (18/10) : ℚ) : ℝ) := by
    exact_mod_cast hjq
  unfold starRadius
  have := mul_lt_mul_of_pos_right hrpow hjr
  linarith

/-- C6 (amended): every star generated by `makeStars` has its depth in
`[minDepth, maxDepth]`; and the radius is strictly decreasing in depth
between stars with equal radius-jitter draws — the star with smaller depth
has strictly larger radius.  (The independent multiplicative jitter breaks
strict monotonicity across arbitrary pairs; see the counterexample.) -/
theorem makeStars_depth_radius (count : ℕ) (W H minDepth maxDepth : ℚ)
    (rs : ℕ → ℚ) (hmm : minDepth ≤ maxDepth) (hmax : maxDepth ≤ 1)
    (hrs : ∀ k, 0 ≤ rs k ∧ rs k < 1) :
    (∀ s ∈ makeStars count W H minDepth maxDepth rs,
      minDepth ≤ s.depth ∧ s.depth ≤ maxDepth) ∧
    (∀ kA kB : ℕ, rs (kA + 1) = rs (kB + 1) →
      (mkStar W H minDepth maxDepth rs kA).depth <
        (mkStar W H minDepth maxDepth rs kB).depth →
      (mkStar W H minDepth maxDepth rs kB).r <
        (mkStar W H minDepth maxDepth rs kA).r) := by
  constructor
  · intro s hs
    simp only [makeStars, List.mem_map, List.mem_range] at hs
    obtain ⟨i, _, rfl⟩ := hs
    exact mkStar_depth_mem W H minDepth maxDepth rs (8 * i) hmm
      (hrs (8 * i)).1 (hrs (8 * i)).2
  · intro kA kB hjeq hlt
    exact mkStar_radius_lt W H minDepth maxDepth rs kA kB hmm hmax
      (hrs kB) (hrs (kA + 1)).1 hjeq hlt

def rsW6 : ℕ → ℚ := fun k => if k = 8 then 1/2 else 0

/-- Witness for C6 (amended): concrete stream with equal jitter draws and
distinct depths. -/
theorem makeStars_depth_radius_witness :
    (∀ s ∈ makeStars 2 800 600 0 1 rsW6, 0 ≤ s.depth ∧ s.depth ≤ 1) ∧
    (mkStar 800 600 0 1 rsW6 8).r < (mkStar 800 600 0 1 rsW6 0).r := by
  have h := makeStars_depth_radius 2 800 600 0 1 rsW6 (by norm_num) (by norm_num)
    (fun k => by dsimp only [rsW6]; split <;> norm_num)
  refine ⟨h.1, ?_⟩
  apply h.2 0 8
  · dsimp only [rsW6]
    norm_num
  · show rand (rsW6 0) 0 1 < rand (rsW6 8) 0 1
    dsimp only [rsW6]
    norm_num [rand]

def rsCex : ℕ → ℚ := fun k =>
  if k = 8 then 40951/100000 else if k = 9 then 99/100 else 0

/-- Counterexample to C6 as stated: with these draws `makeStars 2` produces a
first star with depth 0 and jitter 0.6 (radius 0.9) and a second star with
depth 0.40951 and jitter 1.788 (radius 0.9502…·1.788 ≈ 1.25): the star with
strictly smaller depth has the strictly smaller radius, so radius is not a
strictly decreasing function of depth. -/
theorem makeStars_radius_cex :
    makeStars 2 800 600 0 1 rsCex =
      [mkStar 800 600 0 1 rsCex 0, mkStar 800 600 0 1 rsCex 8] ∧
    (mkStar 800 600 0 1 rsCex 0).depth < (mkStar 800 600 0 1 rsCex 8).depth ∧
    (mkStar 800 600 0 1 rsCex 0).r < (mkStar 800 600 0 1 rsCex 8).r := by
  refine ⟨?_, ?_, ?_⟩
  · norm_num [makeStars, List.range_succ]
  · show rand (rsCex 0) 0 1 < rand (rsCex 8) 0 1
    norm_num [rsCex, rand]
  · show starRadius (rand (rsCex 0) 0 1) (rand (rsCex 1) (6/10) (18/10)) <
      starRadius (rand (rsCex 8) 0 1) (rand (rsCex 9) (6/10) (18/10))
    have h0 : rand (rsCex 0) 0 1 = 0 := by norm_num [rsCex, rand]
    have h8 : rand (rsCex 8) 0 1 = 40951/100000 := by norm_num [rsCex, rand]
    have h1 : rand (rsCex 1) (6/10) (18/10) = 6/10 := by norm_num [rsCex, rand]
    have h9 : rand (rsCex 9) (6/10) (18/10) = 1788/1000 := by norm_num [rsCex, rand]
    rw [h0, h8, h1, h9]
    unfold starRadius
    have hone : ((1 - (0:ℚ) : ℚ) : ℝ) = 1 := by norm_num
    have hbase : ((1 - (40951/100000:ℚ) : ℚ) : ℝ) = (9/10 : ℝ) ^ (5:ℕ) := by
      push_cast
      norm_num
    rw [hone, hbase, Real.one_rpow]
    have hpow : ((9/10:ℝ) ^ (5:ℕ)) ^ (1.2:ℝ) = (9/10:ℝ) ^ (6:ℕ) := by
      rw [← Real.rpow_natCast (9/10:ℝ) 5,
        ← Real.rpow_mul (by norm_num : (0:ℝ) ≤ 9/10),
        show ((5:ℕ):ℝ) * (1.2:ℝ) = ((6:ℕ):ℝ) by norm_num,
        Real.rpow_natCast]
    rw [hpow]
    push_cast
    norm_num

end Galaxy

